import Mathlib

/-!
Verification development for the TopTask server: a shallow embedding of the
authentication, account-lifecycle and task-ownership controllers, together
with theorems settling the specified behavioural claims against that
embedding.  JavaScript strings are modelled as lists of characters, the
document store as lists of records, thrown exceptions as an `Except` error
channel, and the Express error middleware as a normalisation step.
-/

namespace TopTask

/-- JavaScript strings, modelled as lists of characters. -/
abbrev Str := List Char

/-- HTTP status codes used by the controllers (from http-status-codes). -/
def OK : Nat := 200

/-- 400 Bad Request. -/
def BAD_REQUEST : Nat := 400

/-- 401 Unauthorized. -/
def UNAUTHORIZED : Nat := 401

/-- 403 Forbidden. -/
def FORBIDDEN : Nat := 403

/-- 404 Not Found. -/
def NOT_FOUND : Nat := 404

/-- 409 Conflict. -/
def CONFLICT : Nat := 409

/-- 500 Internal Server Error. -/
def INTERNAL_SERVER_ERROR : Nat := 500

/-- The ApiError class (utils/apiError.ts): a status, a message and a list
of detail messages.  The `success` flag is always false in the controllers
and is omitted. -/
structure ApiErr where
  status : Nat
  message : String
  errors : List String
  deriving Repr, DecidableEq

/-- An exception travelling up to the Express error middleware: either an
`ApiError` constructed by the controllers, or any other JavaScript error
(e.g. a mongoose `ValidationError` or `CastError`). -/
inductive Thrown where
  | api (e : ApiErr)
  | js (msg : String)
  deriving Repr, DecidableEq

/-- The error-handling middleware in app.ts: an `ApiError` keeps its status,
message and detail list; every other error is normalised to a 500
"Internal Server Error" envelope.  (The 413 payload-size branch concerns the
body-parser layer, which is outside this embedding.) -/
def runHandler {α : Type} (r : Except Thrown α) : Except ApiErr α :=
  match r with
  | .ok a => .ok a
  | .error (.api e) => .error e
  | .error (.js _) => .error ⟨INTERNAL_SERVER_ERROR, "Internal Server Error", []⟩

/-- A `try { ... } catch (error) { throw new ApiError(500, msg) }` block as
used by several controllers: any exception raised by the body, `ApiError`s
included, is replaced by a fresh 500 `ApiError` carrying `msg`. -/
def tryCatch500 {α : Type} (msg : String) (r : Except Thrown α) : Except Thrown α :=
  match r with
  | .ok a => .ok a
  | .error _ => .error (.api ⟨INTERNAL_SERVER_ERROR, msg, []⟩)

/-- JavaScript truthiness for an optional string request field: `undefined`
and the empty string are falsy. -/
def truthy (s : Option Str) : Bool :=
  match s with
  | none => false
  | some s => !s.isEmpty

/-- JavaScript `String.prototype.trim`: strip leading and trailing
whitespace. -/
def jsTrim (s : Str) : Str :=
  ((s.dropWhile Char.isWhitespace).reverse.dropWhile Char.isWhitespace).reverse

/-- JavaScript `String.prototype.toLowerCase` on the character sets
accepted here, mapped characterwise via `Char.toLower` (ASCII uppercase
letters become lowercase, everything else is unchanged). -/
def jsToLower (s : Str) : Str :=
  s.map Char.toLower

/-- A character allowed by the username regex `[a-zA-Z0-9_]`. -/
def isUsernameChar (c : Char) : Bool :=
  c.isAlphanum || c == '_'

/-- The username regex `^[a-zA-Z0-9_]+$` of zod/userValidation.ts. -/
def usernameRegexMatch (s : Str) : Bool :=
  !s.isEmpty && s.all isUsernameChar

/-- A character allowed by the `[^\s@]` classes of the email regex. -/
def isEmailChar (c : Char) : Bool :=
  !c.isWhitespace && c != '@'

/-- The email regex `^[^\s@]+@[^\s@]+\.[^\s@]+$` of zod/userValidation.ts:
a non-empty local part without whitespace or `@`, one `@`, and a domain
without whitespace or `@` containing a dot with at least one character on
each side. -/
def emailRegexMatch (s : Str) : Bool :=
  match s.findIdx? (· == '@') with
  | none => false
  | some i =>
    let localPart := s.take i
    let domain := s.drop (i + 1)
    !localPart.isEmpty && localPart.all isEmailChar && domain.all isEmailChar &&
      ((domain.drop 1).dropLast.contains '.')

/-- A signed JWT, abstracted to the two facts the server inspects:
whether `jwt.verify` with the server secret succeeds (signature and expiry
check), and the optional `id` field of the decoded payload. -/
structure Token where
  verifies : Bool
  payloadId : Option Nat
  deriving Repr, DecidableEq

/-- The call `jwt.sign({ id }, JWT_SECRET, ...)`: a token that verifies under the
server secret and whose payload carries the given user id. -/
def jwtSign (uid : Nat) : Token :=
  ⟨true, some uid⟩

/-- A persisted user document (models/User.model.ts): identity fields, the
stored (hashed) password, the last-issued tokens, and the list of owned
todo ids. -/
structure UserRec where
  id : Nat
  username : Str
  email : Str
  password : Str
  accessToken : Option Str
  refreshToken : Option Str
  todos : List Nat
  deriving Repr, DecidableEq

/-- A persisted todo document, exactly the paths defined by the schema of
models/Todo.model.ts.  Note the schema defines `completed` but no
`isCompleted` path, and no `user`/owner path; dueDate is a millisecond
timestamp. -/
structure TodoRec where
  id : Nat
  title : Str
  description : Str
  dueDate : Int
  completed : Bool
  priorityScore : Int
  estimatedTime : Int
  tags : List Str
  deriving Repr, DecidableEq

/-- The public projection returned by signup/login:
`{ id, email, name }` — no password or hash field exists in this shape. -/
structure PublicUser where
  id : Nat
  email : Str
  name : Str
  deriving Repr, DecidableEq

/-- The bcrypt model: an abstract salted hash, passed in as a parameter.
`bcrypt.compare(plain, stored)` succeeds exactly when hashing the candidate
reproduces the stored digest. -/
def bcryptCompare (hash : Str → Str) (plain stored : Str) : Bool :=
  hash plain == stored

/-- Mongoose applies the schema trim and lowercase setters to the
username field, both at document assignment and when casting query filter
values. -/
def usernameSetters (s : Str) : Str :=
  jsToLower (jsTrim s)

/-- Lookup `User.findOne({ _id: uid })` / `User.findById(uid)`. -/
def findUserById (db : List UserRec) (uid : Nat) : Option UserRec :=
  db.find? (fun u => u.id == uid)

/-- Lookup `User.findOne({ username })`: the filter value goes through the schema
setters (trim, lowercase) before being compared with the stored, already
normalised usernames. -/
def findUserByUsername (db : List UserRec) (uname : Str) : Option UserRec :=
  db.find? (fun u => u.username == usernameSetters uname)

/-- Lookup `Todo.findById(tid)` and friends. -/
def findTodoById (db : List TodoRec) (tid : Nat) : Option TodoRec :=
  db.find? (fun t => t.id == tid)

/-- Saving a fetched and mutated user document back to the store: the
document with the matching `_id` is replaced. -/
def saveUser (db : List UserRec) (u : UserRec) : List UserRec :=
  db.map (fun x => if x.id == u.id then u else x)

/-- Outcome of the authentication middleware: short-circuit with an error,
or pass through with the resolved user attached to the request. -/
inductive AuthOutcome where
  | errApi (e : ApiErr)
  | proceed (user : UserRec)
  deriving Repr, DecidableEq

/-- Token extraction in Auth.middleware.ts:
`req.cookies?.token || req.header("Authorization")?.split(" ")[1]` —
the cookie token if present, otherwise the bearer token of the
Authorization header. -/
def extractToken (cookieToken headerToken : Option Token) : Option Token :=
  cookieToken <|> headerToken

/-- The `authenticate` middleware (middlewares/Auth.middleware.ts): extract
a token from cookie or Authorization header; 403 if absent; 500 if the
server secret is unconfigured; 401 if `jwt.verify` fails; 401 if the
decoded payload has no `id` or the id resolves to no user; otherwise attach
the user and proceed. -/
def authenticate (secretDefined : Bool) (users : List UserRec)
    (cookieToken headerToken : Option Token) : AuthOutcome :=
  match extractToken cookieToken headerToken with
  | none => .errApi ⟨FORBIDDEN, "No token provided", []⟩
  | some tok =>
    if !secretDefined then
      .errApi ⟨INTERNAL_SERVER_ERROR, "JWT SECRET is not defined", []⟩
    else if !tok.verifies then
      .errApi ⟨UNAUTHORIZED, "Invalid token", []⟩
    else
      match tok.payloadId with
      | some uid =>
        match findUserById users uid with
        | none => .errApi ⟨UNAUTHORIZED, "User not found", []⟩
        | some u => .proceed u
      | none => .errApi ⟨UNAUTHORIZED, "Invalid token payload", []⟩

/-- The raw signup/login request body fields; `none` models an absent
field. -/
structure SignupBody where
  username : Option Str
  email : Option Str
  password : Option Str
  deriving Repr, DecidableEq

/-- zod output of userValidation.ts: username after
`.trim().toLowerCase()`, email and password as given. -/
structure ValidatedUser where
  username : Str
  email : Str
  password : Str
  deriving Repr, DecidableEq

/-- The check `userValidationSchema.safeParse` on present string fields: the username
regex and min-3 checks run on the raw value (the transform applies after
all checks), the email regex and the password min-8 check run on their raw
values; all issue messages are collected in field order.  The schema sets
no maximum username length. -/
def zodValidateUser (username email password : Str) :
    Except (List String) ValidatedUser :=
  let errs :=
    (if !usernameRegexMatch username then
      ["Username can only contain letters, numbers, and underscores"] else []) ++
    (if username.length < 3 then
      ["Username must be at least 3 characters long"] else []) ++
    (if !emailRegexMatch email then ["Invalid email address"] else []) ++
    (if password.length < 8 then
      ["Password must be at least 8 characters long"] else [])
  if errs.isEmpty then
    .ok ⟨jsToLower (jsTrim username), email, password⟩
  else
    .error errs

/-- The validators of the User schema, run on save against the
setter-normalised document: username required, 3–20 chars, matching
`[a-zA-Z0-9_]+`; email and password required. -/
def mongooseUserValid (u : UserRec) : Bool :=
  !u.username.isEmpty && decide (3 ≤ u.username.length) &&
    decide (u.username.length ≤ 20) && u.username.all isUsernameChar &&
    !u.email.isEmpty && !u.password.isEmpty

/-- The pre-save hook of User.model.ts: when the password path was
modified, replace it with its bcrypt hash; otherwise leave the document
unchanged. -/
def preSaveHashHook (hash : Str → Str) (passwordModified : Bool) (u : UserRec) : UserRec :=
  if passwordModified then { u with password := hash u.password } else u

/-- Handler `userSignUp` (User.controller.ts): missing/empty field → 404; zod shape
failure → 400 with the issue messages; duplicate username → 409; duplicate
email → 409; otherwise `new User(validatedData).save()` — the schema
validators run on the setter-normalised document and a validation failure
surfaces as a non-ApiError mongoose exception; on success the stored user
starts with null tokens and no todos, and the response carries only the
public projection.  Returns the response data and the new user list. -/
def userSignUp (hash : Str → Str) (db : List UserRec) (freshId : Nat)
    (body : SignupBody) : Except Thrown (PublicUser × List UserRec) :=
  if !(truthy body.username && truthy body.email && truthy body.password) then
    .error (.api ⟨NOT_FOUND, "Username, Email and password are required", []⟩)
  else
    let uname := body.username.getD []
    let email := body.email.getD []
    let pw := body.password.getD []
    match zodValidateUser uname email pw with
    | .error msgs => .error (.api ⟨BAD_REQUEST, "Validation error", msgs⟩)
    | .ok v =>
      if (findUserByUsername db uname).isSome then
        .error (.api ⟨CONFLICT, "Username is already in use", []⟩)
      else if (db.find? (fun u => u.email == jsTrim email)).isSome then
        .error (.api ⟨CONFLICT, "Email is already in use", []⟩)
      else
        let newUser : UserRec :=
          ⟨freshId, usernameSetters v.username, jsTrim v.email, v.password,
            none, none, []⟩
        if !mongooseUserValid newUser then
          .error (.js "User validation failed")
        else
          let saved := preSaveHashHook hash true newUser
          .ok (⟨freshId, saved.email, saved.username⟩, db ++ [saved])

/-- The data returned by a successful login: the public projection and the
freshly signed access token. -/
structure LoginData where
  userInfo : PublicUser
  token : Token
  deriving Repr, DecidableEq

/-- Handler `userLogin` (User.controller.ts): missing secret → plain error (500
after normalisation); missing/empty credential → 404; unknown username →
404; `isPasswordValid` failure → 401 with no token; otherwise 200 with the
public projection and a 1-hour access token signed over `{ id }`. -/
def userLogin (hash : Str → Str) (secretDefined : Bool) (db : List UserRec)
    (username password : Option Str) : Except Thrown LoginData :=
  if !secretDefined then
    .error (.js "JWT_SECRET is not defined in environment variables")
  else if !(truthy username && truthy password) then
    .error (.api ⟨NOT_FOUND, "Email and password are requried", []⟩)
  else
    match findUserByUsername db (username.getD []) with
    | none => .error (.api ⟨NOT_FOUND, "user not found", []⟩)
    | some u =>
      if !bcryptCompare hash (password.getD []) u.password then
        .error (.api ⟨UNAUTHORIZED, "Unauthorized", []⟩)
      else
        .ok ⟨⟨u.id, u.email, u.username⟩, jwtSign u.id⟩

/-- Handler `userLogout` (User.controller.ts): 401 when no authenticated user is on
the request; 404 when the id no longer resolves; otherwise null out both
stored tokens, save, and succeed.  The password path is untouched, so the
pre-save hook does not re-hash.  Returns the success message and the new
user list. -/
def userLogout (hash : Str → Str) (db : List UserRec) (reqUser : Option UserRec) :
    Except Thrown (String × List UserRec) :=
  match reqUser with
  | none => .error (.api ⟨UNAUTHORIZED, "User not authenticated", []⟩)
  | some u =>
    match findUserById db u.id with
    | none => .error (.api ⟨NOT_FOUND, "User not found", []⟩)
    | some um =>
      let um' := preSaveHashHook hash false
        { um with accessToken := none, refreshToken := none }
      .ok ("Logout successful", saveUser db um')

/-- Handler `passwordReset` (User.controller.ts): 401 when unauthenticated; 400
when either password field is missing/empty; then a try block whose catch
re-throws every failure — the 404 for a vanished user and, notably, the 401
for a wrong old password included — as a 500 "Failed to reset password";
on success the stored password is the hash of the new plaintext (the
pre-save hook fires because the password path was modified). -/
def passwordReset (hash : Str → Str) (db : List UserRec)
    (reqUser : Option UserRec) (oldPassword newPassword : Option Str) :
    Except Thrown (String × List UserRec) :=
  match reqUser with
  | none => .error (.api ⟨UNAUTHORIZED, "User not found", []⟩)
  | some u =>
    if !(truthy oldPassword && truthy newPassword) then
      .error (.api ⟨BAD_REQUEST, "old password, and new password are required", []⟩)
    else
      tryCatch500 "Failed to reset password" (
        match findUserById db u.id with
        | none => .error (.api ⟨NOT_FOUND, "User not found!", []⟩)
        | some um =>
          if !bcryptCompare hash (oldPassword.getD []) um.password then
            .error (.api ⟨UNAUTHORIZED, "Old password is incorrect", []⟩)
          else
            let um' := preSaveHashHook hash true
              { um with password := newPassword.getD [] }
            .ok ("Password reset successful", saveUser db um'))

/-- The raw todo request body.  `dueDate` is `none` when the field is
absent or its string does not parse to a date (both leave `new Date(...)`
invalid and fail `z.date()`), `some n` when it parses to timestamp `n`.
The body may carry a `completed` flag, but the validation schema defines no
such key, so zod strips it. -/
structure TodoBody where
  title : Option Str
  description : Option Str
  dueDate : Option Int
  completed : Option Bool
  isCompleted : Option Bool
  priorityScore : Option Int
  estimatedTime : Option Int
  tags : Option (List Str)
  deriving Repr, DecidableEq

/-- zod output of todoValidation.ts.  The schema names its completion flag
`isCompleted` (defaulting to false) and puts no bounds on
`priorityScore`. -/
structure TodoParsed where
  title : Str
  description : Str
  dueDate : Int
  isCompleted : Bool
  priorityScore : Int
  estimatedTime : Int
  tags : List Str
  deriving Repr, DecidableEq

/-- The check `todoValidationSchema.safeParse`: title required and 1–100 chars,
description required and non-empty, dueDate must preprocess to a valid
date; `isCompleted`, `priorityScore`, `estimatedTime` and `tags` fall back
to their defaults when absent; the `completed` key of the body is not part of
the schema and is dropped. -/
def zodValidateTodo (b : TodoBody) : Except (List String) TodoParsed :=
  let titleErrs :=
    match b.title with
    | none => ["Required"]
    | some t =>
      (if t.length < 1 then ["Title is required"] else []) ++
      (if 100 < t.length then ["Title must be 100 characters or less"] else [])
  let descErrs :=
    match b.description with
    | none => ["Required"]
    | some d => if d.length < 1 then ["Description is required"] else []
  let dueErrs :=
    match b.dueDate with
    | none => ["Invalid date"]
    | some _ => []
  let errs := titleErrs ++ descErrs ++ dueErrs
  if errs.isEmpty then
    .ok ⟨b.title.getD [], b.description.getD [], b.dueDate.getD 0,
      b.isCompleted.getD false, b.priorityScore.getD 0,
      b.estimatedTime.getD 0, b.tags.getD []⟩
  else
    .error errs

/-- Building a Todo document from the parsed data (`Todo.create(todoData)`
under the strict mode of the schema): only schema paths are taken, so the
parsed `isCompleted` value is discarded and `completed` takes its schema
default `false`. -/
def mkTodoDoc (freshId : Nat) (d : TodoParsed) : TodoRec :=
  ⟨freshId, d.title, d.description, d.dueDate, false, d.priorityScore,
    d.estimatedTime, d.tags⟩

/-- The validators of the Todo schema, run on save: title, description and
dueDate required; priorityScore within `min: 0, max: 10`. -/
def mongooseValidTodo (t : TodoRec) : Bool :=
  !t.title.isEmpty && !t.description.isEmpty &&
    decide (0 ≤ t.priorityScore) && decide (t.priorityScore ≤ 10)

/-- State returned by a successful task creation: the created document, the
new todo list and the new user list (the todos list of the owner gained the new
id). -/
structure CreateOutcome where
  created : TodoRec
  todosDb : List TodoRec
  usersDb : List UserRec
  deriving Repr, DecidableEq

/-- Handler `createTask` (Todo.controller.ts): 401 when unauthenticated or the user
id no longer resolves; zod failure → 400 "Invalid input data" with every
issue message (thrown outside the try block, so it reaches the client);
then a try block in which `Todo.create` runs the schema validators — a
validation failure (e.g. priorityScore out of [0,10]) is a non-ApiError
caught and re-thrown as 500 "Failed to create todo" — and on success the
new id is appended to the todos list of the owner. -/
def createTask (hash : Str → Str) (usersDb : List UserRec) (todosDb : List TodoRec)
    (reqUser : Option UserRec) (freshId : Nat) (body : TodoBody) :
    Except Thrown CreateOutcome :=
  match reqUser with
  | none => .error (.api ⟨UNAUTHORIZED, "Authentication required", []⟩)
  | some u =>
    match findUserById usersDb u.id with
    | none => .error (.api ⟨UNAUTHORIZED, "User not found", []⟩)
    | some um =>
      match zodValidateTodo body with
      | .error msgs => .error (.api ⟨BAD_REQUEST, "Invalid input data", msgs⟩)
      | .ok d =>
        tryCatch500 "Failed to create todo" (
          let t := mkTodoDoc freshId d
          if !mongooseValidTodo t then
            .error (.js "Todo validation failed")
          else
            let um' := preSaveHashHook hash false
              { um with todos := um.todos ++ [freshId] }
            .ok ⟨t, todosDb ++ [t], saveUser usersDb um'⟩)

/-- MongoDB equality of the filter condition `user: uid` against a todo
document: the Todo schema defines no `user` path, so no persisted document
has one, and equality against a missing path matches nothing.  (Under the
legacy `strictQuery: true` casting the unknown path would instead be
silently dropped from the filter — then the query would match by id alone
with no ownership check at all; both readings falsify an ownership-scoped
lookup.) -/
def todoUserPathEq (_t : TodoRec) (_uid : Nat) : Bool :=
  false

/-- MongoDB equality of the filter condition `isCompleted: b` against a
todo document: the Todo schema defines `completed` but no `isCompleted`
path, so the condition matches no document. -/
def todoIsCompletedPathEq (_t : TodoRec) (_b : Bool) : Bool :=
  false

/-- Handler `markAsDoneById` (Todo.controller.ts): 401 when unauthenticated, 400
when no id, then a try block running
`Todo.findOneAndUpdate({ _id: id, user: user.id }, { completed: true })`;
a match sets `completed := true`, no match raises a 404 that the catch
re-throws as 500 "Failed to mark todo as complete". -/
def markAsDoneById (todosDb : List TodoRec) (reqUser : Option UserRec)
    (id : Option Nat) : Except Thrown (String × List TodoRec) :=
  match reqUser with
  | none => .error (.api ⟨UNAUTHORIZED, "Authentication required", []⟩)
  | some u =>
    match id with
    | none => .error (.api ⟨BAD_REQUEST, "Todo ID is required", []⟩)
    | some tid =>
      tryCatch500 "Failed to mark todo as complete" (
        match todosDb.find? (fun t => t.id == tid && todoUserPathEq t u.id) with
        | none => .error (.api ⟨NOT_FOUND, "Todo not found", []⟩)
        | some t =>
          let t' := { t with completed := true }
          .ok ("Todo marked as complete",
            todosDb.map (fun x => if x.id == t.id && todoUserPathEq x u.id then t' else x)))

/-- Handler `getUpcommingTasks` (Todo.controller.ts): 401 when unauthenticated,
then a try block populating the todos of the user with the filter
`{ dueDate: { $lt: startOfToday }, isCompleted: false }` — only owned ids
resolving to documents passing the filter are returned. -/
def getUpcommingTasks (usersDb : List UserRec) (todosDb : List TodoRec)
    (reqUser : Option UserRec) (startOfToday : Int) :
    Except Thrown (List TodoRec) :=
  match reqUser with
  | none => .error (.api ⟨UNAUTHORIZED, "Authentication required", []⟩)
  | some u =>
    tryCatch500 "Failed to fetch upcoming tasks" (
      match findUserById usersDb u.id with
      | none => .error (.api ⟨NOT_FOUND, "No upcoming tasks found", []⟩)
      | some um =>
        .ok (um.todos.filterMap (fun tid =>
          match findTodoById todosDb tid with
          | none => none
          | some t =>
            if decide (t.dueDate < startOfToday) && todoIsCompletedPathEq t false then
              some t
            else
              none)))

/-- Handler `updateTaskById` (Todo.controller.ts): 401 when unauthenticated, 400
when no id, then a try block: zod failure raises a 400 and a missing id a
404, but the catch re-throws both as 500 "Failed to update todo"; a hit
applies `Todo.findByIdAndUpdate(id, data)` — by id alone, no ownership
condition — which under strict mode drops the unknown `isCompleted` path
and, with validators not running on update, writes `priorityScore`
unchecked. -/
def updateTaskById (todosDb : List TodoRec) (reqUser : Option UserRec)
    (id : Option Nat) (body : TodoBody) :
    Except Thrown (TodoRec × List TodoRec) :=
  match reqUser with
  | none => .error (.api ⟨UNAUTHORIZED, "Authentication required", []⟩)
  | some _ =>
    match id with
    | none => .error (.api ⟨BAD_REQUEST, "Todo ID is required", []⟩)
    | some tid =>
      tryCatch500 "Failed to update todo" (
        match zodValidateTodo body with
        | .error msgs => .error (.api ⟨BAD_REQUEST, "Invalid input data", msgs⟩)
        | .ok d =>
          match findTodoById todosDb tid with
          | none => .error (.api ⟨NOT_FOUND, "Todo not found", []⟩)
          | some t =>
            let t' : TodoRec :=
              ⟨t.id, d.title, d.description, d.dueDate, t.completed,
                d.priorityScore, d.estimatedTime, d.tags⟩
            .ok (t', todosDb.map (fun x => if x.id == tid then t' else x)))

/-- Handler `deleteTaskById` (Todo.controller.ts): 401 when unauthenticated, 400
when no id, then a try block running `Todo.findByIdAndDelete(id)` — by id
alone, no ownership condition; a miss raises a 404 that the catch
re-throws as 500 "Failed to delete todo". -/
def deleteTaskById (todosDb : List TodoRec) (reqUser : Option UserRec)
    (id : Option Nat) : Except Thrown (String × List TodoRec) :=
  match reqUser with
  | none => .error (.api ⟨UNAUTHORIZED, "Authentication required", []⟩)
  | some _ =>
    match id with
    | none => .error (.api ⟨BAD_REQUEST, "Todo ID is required", []⟩)
    | some tid =>
      tryCatch500 "Failed to delete todo" (
        match findTodoById todosDb tid with
        | none => .error (.api ⟨NOT_FOUND, "Todo not found", []⟩)
        | some _ =>
          .ok ("Todo deleted successfully",
            todosDb.eraseP (fun t => t.id == tid)))

/-- Helper: a predicate false on every element leaves `dropWhile` as the
identity. -/
theorem dropWhile_of_all_false {p : Char → Bool} (l : Str)
    (h : ∀ c ∈ l, p c = false) : l.dropWhile p = l := by
  cases l with
  | nil => rfl
  | cons a t =>
    rw [List.dropWhile_cons, h a (List.mem_cons_self a t)]
    simp

/-- Helper: trimming a string with no whitespace characters is the
identity. -/
theorem jsTrim_of_all_not_ws (l : Str)
    (h : ∀ c ∈ l, c.isWhitespace = false) : jsTrim l = l := by
  unfold jsTrim
  rw [dropWhile_of_all_false l h,
    dropWhile_of_all_false l.reverse (fun c hc => h c (List.mem_reverse.mp hc)),
    List.reverse_reverse]

/-- Helper: username characters are not whitespace. -/
theorem isUsernameChar_not_ws {c : Char} (h : isUsernameChar c = true) :
    c.isWhitespace = false := by
  by_contra hw
  rw [Bool.not_eq_false] at hw
  simp only [Char.isWhitespace, Bool.or_eq_true, decide_eq_true_eq] at hw
  rcases hw with ((h1 | h1) | h1) | h1 <;> subst h1 <;> exact absurd h (by decide)

/-- Helper: lowercasing preserves membership in the username character
class. -/
theorem isUsernameChar_toLower {c : Char} (h : isUsernameChar c = true) :
    isUsernameChar c.toLower = true := by
  by_cases hc : c.toNat ≥ 65 ∧ c.toNat ≤ 90
  · have hl : c.toLower = Char.ofNat (c.toNat + 32) := by
      simp [Char.toLower, hc]
    rw [hl]
    obtain ⟨h1, h2⟩ := hc
    set n := c.toNat with hn
    interval_cases n <;> decide
  · have hl : c.toLower = c := by
      simp [Char.toLower, hc]
    rw [hl]
    exact h

/-- Helper: lowercasing a string of username characters yields a string of
username characters. -/
theorem all_isUsernameChar_toLower (l : Str) (h : l.all isUsernameChar = true) :
    (jsToLower l).all isUsernameChar = true := by
  rw [jsToLower, List.all_map]
  rw [List.all_eq_true] at h ⊢
  intro x hx
  exact isUsernameChar_toLower (h x hx)

/-- Helper: trimming a string of username characters is the identity. -/
theorem jsTrim_username (l : Str) (h : l.all isUsernameChar = true) :
    jsTrim l = l :=
  jsTrim_of_all_not_ws l (fun c hc => isUsernameChar_not_ws (List.all_eq_true.mp h c hc))

/-- Helper: lowercasing preserves length. -/
theorem jsToLower_length (l : Str) : (jsToLower l).length = l.length :=
  List.length_map _ _

/-- Helper: an element on which the predicate fails is not dropped by
`dropWhile`. -/
theorem mem_dropWhile_of_not {p : Char → Bool} {x : Char} :
    ∀ l : Str, x ∈ l → p x = false → x ∈ l.dropWhile p := by
  intro l
  induction l with
  | nil => intro h; cases h
  | cons a t ih =>
    intro hmem hpx
    rw [List.dropWhile_cons]
    rcases List.mem_cons.mp hmem with rfl | ht
    · rw [hpx]
      exact List.mem_cons_self _ _
    · by_cases hpa : p a
      · rw [if_pos hpa]
        exact ih ht hpx
      · rw [if_neg hpa]
        exact List.mem_cons_of_mem _ ht

/-- Helper: a string containing a non-whitespace character does not trim to
the empty string. -/
theorem jsTrim_ne_nil_of_mem {x : Char} {l : Str} (hmem : x ∈ l)
    (hx : x.isWhitespace = false) : jsTrim l ≠ [] := by
  intro hnil
  unfold jsTrim at hnil
  rw [List.reverse_eq_nil_iff] at hnil
  have h1 : x ∈ l.dropWhile Char.isWhitespace := mem_dropWhile_of_not l hmem hx
  have h2 : x ∈ (l.dropWhile Char.isWhitespace).reverse := List.mem_reverse.mpr h1
  have h3 : x ∈ (l.dropWhile Char.isWhitespace).reverse.dropWhile Char.isWhitespace :=
    mem_dropWhile_of_not _ h2 hx
  rw [hnil] at h3
  cases h3

/-- Helper: a successful `findIdx?` exhibits an element satisfying the
predicate. -/
theorem findIdx?_mem {p : Char → Bool} :
    ∀ (l : Str) (start i : Nat), l.findIdx? p start = some i →
      ∃ x ∈ l, p x = true := by
  intro l
  induction l with
  | nil => intro start i h; cases h
  | cons a t ih =>
    intro start i h
    rw [List.findIdx?_cons] at h
    by_cases hpa : p a
    · exact ⟨a, List.mem_cons_self _ _, hpa⟩
    · rw [if_neg (by simpa using hpa)] at h
      obtain ⟨x, hx, hpx⟩ := ih (start + 1) i h
      exact ⟨x, List.mem_cons_of_mem _ hx, hpx⟩

/-- Helper: a string passing the email regex contains an at sign. -/
theorem emailRegexMatch_at_mem {s : Str} (h : emailRegexMatch s = true) :
    '@' ∈ s := by
  unfold emailRegexMatch at h
  cases hf : s.findIdx? (· == '@') with
  | none => rw [hf] at h; cases h
  | some i =>
    obtain ⟨x, hx, hpx⟩ := findIdx?_mem s 0 i hf
    rw [show x = '@' from by simpa using hpx] at hx
    exact hx

/-- Helper: a string passing the email regex does not trim to the empty
string. -/
theorem emailRegexMatch_trim_ne_nil {s : Str} (h : emailRegexMatch s = true) :
    jsTrim s ≠ [] :=
  jsTrim_ne_nil_of_mem (emailRegexMatch_at_mem h) (by decide)

/-- Helper: extraction of the conditions certified by a successful user
validation. -/
theorem zodValidateUser_ok {a b c : Str} {v : ValidatedUser}
    (h : zodValidateUser a b c = .ok v) :
    usernameRegexMatch a = true ∧ 3 ≤ a.length ∧ emailRegexMatch b = true ∧
      8 ≤ c.length ∧ v = ⟨jsToLower (jsTrim a), b, c⟩ := by
  unfold zodValidateUser at h
  by_cases h1 : usernameRegexMatch a
  all_goals by_cases h2 : a.length < 3
  all_goals by_cases h3 : emailRegexMatch b
  all_goals by_cases h4 : c.length < 8
  all_goals simp [h1, h2, h3, h4] at h
  exact ⟨h1, by omega, h3, by omega, h.symm⟩

/-- Helper: a find over a conjunction with an always-false condition finds
nothing. -/
theorem find?_and_false (l : List TodoRec) (tid uid : Nat) :
    l.find? (fun t => t.id == tid && todoUserPathEq t uid) = none := by
  induction l with
  | nil => rfl
  | cons a t ih =>
    rw [List.find?_cons_of_neg _ (by simp [todoUserPathEq])]
    exact ih

/-- Helper: after saving a document, looking its id up returns the saved
document, provided some document with that id was already present. -/
theorem findUserById_saveUser {db : List UserRec} {uid : Nat} {v w : UserRec}
    (hfind : findUserById db uid = some w) (hv : v.id = uid) :
    findUserById (saveUser db v) uid = some v := by
  induction db with
  | nil => cases hfind
  | cons a t ih =>
    simp only [findUserById, saveUser, List.map_cons] at hfind ih ⊢
    by_cases ha : (a.id == uid) = true
    · have hrepl : (a.id == v.id) = true := by rw [hv]; exact ha
      rw [if_pos hrepl]
      exact List.find?_cons_of_pos _ (by simp [hv])
    · have hrepl : (a.id == v.id) = false := by rw [hv]; simpa using ha
      rw [List.find?_cons_of_neg _ (by simpa using ha)] at hfind
      rw [if_neg (by simp [hrepl]), List.find?_cons_of_neg _ (by simpa using ha)]
      exact ih hfind

/-- Helper: the stored tokens of a given user id, checked over the whole
store. -/
def allTokensNull (db : List UserRec) (uid : Nat) : Bool :=
  db.all (fun x => x.id != uid || (x.accessToken == none && x.refreshToken == none))

/-- Helper: saving a document with null tokens nulls the tokens stored
under its id everywhere. -/
theorem allTokensNull_saveUser (db : List UserRec) (v : UserRec)
    (h1 : v.accessToken = none) (h2 : v.refreshToken = none) :
    allTokensNull (saveUser db v) v.id = true := by
  unfold allTokensNull saveUser
  rw [List.all_map, List.all_eq_true]
  intro x _
  by_cases hid : x.id = v.id
  · simp [hid, h1, h2]
  · simp [hid]

/-- A concrete stand-in for the bcrypt hash, used to evaluate the handlers
on closed inputs: prefix the plaintext with a marker character. -/
def demoHash (s : Str) : Str :=
  '#' :: s

/-- A concrete registered user for closed evaluations. -/
def alice : UserRec :=
  ⟨1, "alice".toList, "alice@example.com".toList,
    demoHash ("password123".toList), none, none, []⟩

/-- A concrete user owning todo 7, for the ownership claims. -/
def bob : UserRec :=
  ⟨2, "bob".toList, "bob@example.com".toList,
    demoHash ("hunter2hunter2".toList), none, none, [7]⟩

/-- A concrete stored todo owned (via the user record of bob) by user 2:
due in the past and not completed. -/
def todo7 : TodoRec :=
  ⟨7, "water plants".toList, "the ficus".toList, -86400000, false, 2, 30,
    []⟩

/-- Claim C1: on a protected route with the server secret configured, the
authentication gate fails with Forbidden when no token is present in the
cookie or the Authorization header, fails with Unauthorized when the token
does not pass signature/expiry verification, fails with Unauthorized when
the verified subject resolves to no existing user, succeeds with the
resolved user attached otherwise, and every outcome is one of these
Forbidden/Unauthorized/pass-through cases. -/
theorem authGateOutcomes (users : List UserRec) (ck hd : Option Token) :
    (extractToken ck hd = none →
      authenticate true users ck hd = .errApi ⟨FORBIDDEN, "No token provided", []⟩) ∧
    (∀ t, extractToken ck hd = some t → t.verifies = false →
      authenticate true users ck hd = .errApi ⟨UNAUTHORIZED, "Invalid token", []⟩) ∧
    (∀ t uid, extractToken ck hd = some t → t.verifies = true →
      t.payloadId = some uid → findUserById users uid = none →
      authenticate true users ck hd = .errApi ⟨UNAUTHORIZED, "User not found", []⟩) ∧
    (∀ t uid u, extractToken ck hd = some t → t.verifies = true →
      t.payloadId = some uid → findUserById users uid = some u →
      authenticate true users ck hd = .proceed u) ∧
    (authenticate true users ck hd = .errApi ⟨FORBIDDEN, "No token provided", []⟩ ∨
      (∃ m, authenticate true users ck hd = .errApi ⟨UNAUTHORIZED, m, []⟩) ∨
      (∃ u, authenticate true users ck hd = .proceed u)) := by
  refine ⟨?_, ?_, ?_, ?_, ?_⟩
  · intro h
    simp [authenticate, h]
  · intro t ht hv
    simp [authenticate, ht, hv]
  · intro t uid ht hv hid hf
    simp [authenticate, ht, hv, hid, hf]
  · intro t uid u ht hv hid hf
    simp [authenticate, ht, hv, hid, hf]
  · cases h : extractToken ck hd with
    | none =>
      left
      simp [authenticate, h]
    | some t =>
      cases hv : t.verifies with
      | false =>
        right; left
        exact ⟨"Invalid token", by simp [authenticate, h, hv]⟩
      | true =>
        cases hid : t.payloadId with
        | none =>
          right; left
          exact ⟨"Invalid token payload", by simp [authenticate, h, hv, hid]⟩
        | some uid =>
          cases hf : findUserById users uid with
          | none =>
            right; left
            exact ⟨"User not found", by simp [authenticate, h, hv, hid, hf]⟩
          | some u =>
            right; right
            exact ⟨u, by simp [authenticate, h, hv, hid, hf]⟩

/-- Witness for C1: the gate evaluated on a concrete request with no token
at all yields Forbidden. -/
theorem authGateOutcomes_witness :
    authenticate true [alice] none none = .errApi ⟨FORBIDDEN, "No token provided", []⟩ :=
  (authGateOutcomes [alice] none none).1 rfl

/-- Claim C2 counterexample: two signup payloads whose usernames violate
the 3–20 shape rule of the claim, neither answered with BadRequest.  An
empty username (0 characters) trips the truthiness guard that precedes
validation and yields a 404 "Username, Email and password are required";
a 21-character alphanumeric username passes the validation schema — it has
no maximum-length check — and fails only at persistence against the model
bound, surfacing as a 500 Internal Server Error. -/
theorem signupShapeRules_cex :
    runHandler (userSignUp demoHash [] 1
      ⟨some [], some ("a@b.com".toList), some ("password123".toList)⟩) =
      .error ⟨NOT_FOUND, "Username, Email and password are required", []⟩ ∧
    runHandler (userSignUp demoHash [] 1
      ⟨some (List.replicate 21 'a'), some ("long@example.com".toList),
        some ("password123".toList)⟩) =
      .error ⟨INTERNAL_SERVER_ERROR, "Internal Server Error", []⟩ ∧
    NOT_FOUND ≠ BAD_REQUEST ∧ INTERNAL_SERVER_ERROR ≠ BAD_REQUEST := by
  exact ⟨rfl, rfl, by decide, by decide⟩

/-- Claim C2 (amended): for every signup request: if any of the three
fields is absent or empty — empty usernames violating the 3–20 shape rule
included — the result is a 404 NotFound from the required-fields guard,
not BadRequest; if the present, non-empty payload violates a shape rule
checked by the validation schema (username shorter than 3 characters or
containing a character outside alphanumeric/underscore, invalid email,
password shorter than 8) the result is BadRequest carrying the validation
messages; a username longer than 20 characters is not caught by the schema
and fails at persistence with a 500 Internal Server Error, not BadRequest;
a taken username yields Conflict; with the username free, a taken email
yields Conflict; otherwise a new user is persisted with an empty tasks
collection and a hashed password, and the response carries only the public
projection (id, email, display name), never the password or its hash. -/
theorem signupBehavior (hash : Str → Str) (db : List UserRec) (fid : Nat)
    (body : SignupBody) :
    ((truthy body.username && truthy body.email && truthy body.password) = false →
      runHandler (userSignUp hash db fid body) =
        .error ⟨NOT_FOUND, "Username, Email and password are required", []⟩) ∧
    (∀ msgs,
      (truthy body.username && truthy body.email && truthy body.password) = true →
      zodValidateUser (body.username.getD []) (body.email.getD []) (body.password.getD []) = .error msgs →
      runHandler (userSignUp hash db fid body) =
        .error ⟨BAD_REQUEST, "Validation error", msgs⟩) ∧
    (∀ v,
      (truthy body.username && truthy body.email && truthy body.password) = true →
      zodValidateUser (body.username.getD []) (body.email.getD []) (body.password.getD []) = .ok v →
      (findUserByUsername db (body.username.getD [])).isSome = true →
      runHandler (userSignUp hash db fid body) =
        .error ⟨CONFLICT, "Username is already in use", []⟩) ∧
    (∀ v,
      (truthy body.username && truthy body.email && truthy body.password) = true →
      zodValidateUser (body.username.getD []) (body.email.getD []) (body.password.getD []) = .ok v →
      findUserByUsername db (body.username.getD []) = none →
      (db.find? (fun u => u.email == jsTrim (body.email.getD []))).isSome = true →
      runHandler (userSignUp hash db fid body) =
        .error ⟨CONFLICT, "Email is already in use", []⟩) ∧
    (∀ v,
      (truthy body.username && truthy body.email && truthy body.password) = true →
      zodValidateUser (body.username.getD []) (body.email.getD []) (body.password.getD []) = .ok v →
      findUserByUsername db (body.username.getD []) = none →
      db.find? (fun u => u.email == jsTrim (body.email.getD [])) = none →
      (usernameSetters v.username).length ≤ 20 →
      runHandler (userSignUp hash db fid body) =
        .ok (⟨fid, jsTrim v.email, usernameSetters v.username⟩,
          db ++ [⟨fid, usernameSetters v.username, jsTrim v.email,
            hash v.password, none, none, []⟩])) ∧
    (∀ v,
      (truthy body.username && truthy body.email && truthy body.password) = true →
      zodValidateUser (body.username.getD []) (body.email.getD []) (body.password.getD []) = .ok v →
      findUserByUsername db (body.username.getD []) = none →
      db.find? (fun u => u.email == jsTrim (body.email.getD [])) = none →
      20 < (usernameSetters v.username).length →
      runHandler (userSignUp hash db fid body) =
        .error ⟨INTERNAL_SERVER_ERROR, "Internal Server Error", []⟩) := by
  refine ⟨?_, ?_, ?_, ?_, ?_, ?_⟩
  · intro hc
    simp [userSignUp, hc, runHandler]
  · intro msgs hc hzod
    simp [userSignUp, hc, hzod, runHandler]
  · intro v hc hzod htaken
    simp [userSignUp, hc, hzod, htaken, runHandler]
  · intro v hc hzod hfree htaken
    simp [userSignUp, hc, hzod, hfree, htaken, runHandler]
  · intro v hc hzod hfree hefree hlen
    obtain ⟨hreg, hlen3, hemail, hpw8, hv⟩ := zodValidateUser_ok hzod
    have hall : (body.username.getD []).all isUsernameChar = true := by
      have := hreg
      unfold usernameRegexMatch at this
      exact (Bool.and_eq_true _ _ |>.mp this).2
    have hallLow : (jsToLower (body.username.getD [])).all isUsernameChar = true :=
      all_isUsernameChar_toLower _ hall
    have htrim : jsTrim (body.username.getD []) = body.username.getD [] :=
      jsTrim_username _ hall
    have hvus : v.username = jsToLower (body.username.getD []) := by
      rw [hv, htrim]
    have hsetters : usernameSetters v.username = jsToLower (jsToLower (body.username.getD [])) := by
      rw [hvus]
      unfold usernameSetters
      rw [jsTrim_username _ hallLow]
    have hall2 : (usernameSetters v.username).all isUsernameChar = true := by
      rw [hsetters]
      exact all_isUsernameChar_toLower _ hallLow
    have hlenEq : (usernameSetters v.username).length = (body.username.getD []).length := by
      rw [hsetters, jsToLower_length, jsToLower_length]
    have hne : usernameSetters v.username ≠ [] := by
      intro hnil
      rw [hnil] at hlenEq
      simp at hlenEq
      omega
    have hemne : jsTrim v.email ≠ [] := by
      have : v.email = body.email.getD [] := by rw [hv]
      rw [this]
      exact emailRegexMatch_trim_ne_nil hemail
    have hpwne : v.password ≠ [] := by
      have hvp : v.password = body.password.getD [] := by rw [hv]
      intro hnil
      rw [hvp] at hnil
      rw [hnil] at hpw8
      simp at hpw8
    have hvalid : mongooseUserValid
        ⟨fid, usernameSetters v.username, jsTrim v.email, v.password, none, none, []⟩ = true := by
      unfold mongooseUserValid
      simp only [List.isEmpty_iff]
      simp [hne, hemne, hpwne, hall2, hlenEq]
      omega
    simp [userSignUp, hc, hzod, hfree, hefree, hvalid, runHandler,
      preSaveHashHook]
  · intro v hc hzod hfree hefree hlen
    have hinvalid : mongooseUserValid
        ⟨fid, usernameSetters v.username, jsTrim v.email, v.password, none, none, []⟩ = false := by
      unfold mongooseUserValid
      have : decide ((usernameSetters v.username).length ≤ 20) = false := by
        simp
        omega
      simp [this]
    simp [userSignUp, hc, hzod, hfree, hefree, hinvalid, runHandler]

/-- Witness for C2: a concrete fresh, well-shaped signup succeeds and
returns exactly the public projection while persisting the user with empty
tasks and a hashed password. -/
theorem signupBehavior_witness :
    runHandler (userSignUp demoHash [] 5
      ⟨some ("carol99".toList), some ("carol@example.com".toList),
        some ("sup3rsecret".toList)⟩) =
      .ok (⟨5, jsTrim ("carol@example.com".toList),
          usernameSetters (jsToLower (jsTrim ("carol99".toList)))⟩,
        [] ++ [⟨5, usernameSetters (jsToLower (jsTrim ("carol99".toList))),
          jsTrim ("carol@example.com".toList),
          demoHash ("sup3rsecret".toList), none, none, []⟩]) :=
  (signupBehavior demoHash [] 5
      ⟨some ("carol99".toList), some ("carol@example.com".toList),
        some ("sup3rsecret".toList)⟩).2.2.2.2.1
    ⟨jsToLower (jsTrim ("carol99".toList)), "carol@example.com".toList,
      "sup3rsecret".toList⟩
    rfl rfl rfl rfl (by decide)

/-- Claim C3: update and delete operate by task id alone with no ownership
re-check — for any authenticated identity and any task id present in the
store, even one absent from the todos collection of that identity, an
update with valid fields succeeds and returns the updated task, and a
delete succeeds and removes the task. -/
theorem updateDeleteIgnoreOwnership (todosDb : List TodoRec) (u : UserRec)
    (tid : Nat) (body : TodoBody) (t : TodoRec) (d : TodoParsed)
    (_hown : tid ∉ u.todos) (hfind : findTodoById todosDb tid = some t)
    (hzod : zodValidateTodo body = .ok d) :
    updateTaskById todosDb (some u) (some tid) body =
      .ok (⟨t.id, d.title, d.description, d.dueDate, t.completed,
          d.priorityScore, d.estimatedTime, d.tags⟩,
        todosDb.map (fun x => if x.id == tid then
          ⟨t.id, d.title, d.description, d.dueDate, t.completed,
            d.priorityScore, d.estimatedTime, d.tags⟩ else x)) ∧
    deleteTaskById todosDb (some u) (some tid) =
      .ok ("Todo deleted successfully", todosDb.eraseP (fun x => x.id == tid)) := by
  constructor
  · simp [updateTaskById, tryCatch500, hzod, hfind]
  · simp [deleteTaskById, tryCatch500, hfind]

/-- Witness for C3: user bob, who owns only todo 7, successfully updates
and deletes the concrete stored todo 9 he does not own. -/
theorem updateDeleteIgnoreOwnership_witness :
    updateTaskById [⟨9, "pay rent".toList, "wire it".toList, 0, false, 1, 10, []⟩]
        (some bob) (some 9)
        ⟨some ("pay rent now".toList), some ("wire it".toList), some 0,
          none, none, none, none, none⟩ =
      .ok (⟨9, "pay rent now".toList, "wire it".toList, 0, false, 0, 0, []⟩,
        [⟨9, "pay rent now".toList, "wire it".toList, 0, false, 0, 0, []⟩]) ∧
    deleteTaskById [⟨9, "pay rent".toList, "wire it".toList, 0, false, 1, 10, []⟩]
        (some bob) (some 9) =
      .ok ("Todo deleted successfully", []) := by
  have h := updateDeleteIgnoreOwnership
    [⟨9, "pay rent".toList, "wire it".toList, 0, false, 1, 10, []⟩] bob 9
    ⟨some ("pay rent now".toList), some ("wire it".toList), some 0,
      none, none, none, none, none⟩
    ⟨9, "pay rent".toList, "wire it".toList, 0, false, 1, 10, []⟩
    ⟨"pay rent now".toList, "wire it".toList, 0, false, 0, 0, []⟩
    (by decide) rfl rfl
  exact ⟨h.1, h.2⟩

/-- Claim C4 (code bug): MarkDone can never succeed, and in particular
never reports NotFound for a missing task: the ownership half of its filter
references a `user` path the Todo schema does not define, so the lookup
matches no document, and the resulting NotFound error is re-thrown by the
surrounding catch as a 500 Internal error — for every store, every
authenticated user and every task id the handler returns the 500 envelope
and no task is modified. -/
theorem markAsDoneAlwaysInternal (todosDb : List TodoRec) (u : UserRec) (tid : Nat) :
    markAsDoneById todosDb (some u) (some tid) =
      .error (.api ⟨INTERNAL_SERVER_ERROR, "Failed to mark todo as complete", []⟩) := by
  simp [markAsDoneById, find?_and_false, tryCatch500]

/-- Claim C5 (code bug): a password reset with a wrong old password is
answered with a 500 "Failed to reset password", not Unauthorized — the 401
raised inside the try block is swallowed by the catch — evaluated here on a
concrete authenticated user and a wrong old password. -/
theorem passwordResetWrongOldInternal :
    runHandler (passwordReset demoHash [alice] (some alice)
        (some ("wrongpass".toList)) (some ("newpassword1".toList))) =
      .error ⟨INTERNAL_SERVER_ERROR, "Failed to reset password", []⟩ ∧
    INTERNAL_SERVER_ERROR ≠ UNAUTHORIZED := by
  exact ⟨rfl, by decide⟩

/-- Claim C6: with the secret configured, login with a registered username
and the matching password returns OK with the public projection and an
access token whose subject decodes to the id of that user, while login with
the same username and a non-matching password returns the Unauthorized
envelope, which carries no token. -/
theorem loginOutcomes (hash : Str → Str) (db : List UserRec) (uname pw : Str)
    (u : UserRec) (hun : uname ≠ []) (hpw : pw ≠ [])
    (hfind : findUserByUsername db uname = some u) :
    (hash pw = u.password →
      userLogin hash true db (some uname) (some pw) =
        .ok ⟨⟨u.id, u.email, u.username⟩, jwtSign u.id⟩ ∧
      (jwtSign u.id).payloadId = some u.id) ∧
    (hash pw ≠ u.password →
      userLogin hash true db (some uname) (some pw) =
        .error (.api ⟨UNAUTHORIZED, "Unauthorized", []⟩)) := by
  constructor
  · intro hok
    refine ⟨?_, rfl⟩
    simp [userLogin, truthy, hun, hpw, hfind, bcryptCompare, hok]
  · intro hbad
    simp [userLogin, truthy, hun, hpw, hfind, bcryptCompare, hbad]

/-- Witness for C6: alice logs in with her correct password and receives a
token carrying her id; with a wrong password she receives the Unauthorized
envelope. -/
theorem loginOutcomes_witness :
    (userLogin demoHash true [alice] (some ("alice".toList))
        (some ("password123".toList)) =
      .ok ⟨⟨alice.id, alice.email, alice.username⟩, jwtSign alice.id⟩ ∧
      (jwtSign alice.id).payloadId = some alice.id) ∧
    userLogin demoHash true [alice] (some ("alice".toList))
        (some ("letmein12345".toList)) =
      .error (.api ⟨UNAUTHORIZED, "Unauthorized", []⟩) := by
  constructor
  · exact (loginOutcomes demoHash [alice] ("alice".toList) ("password123".toList)
      alice (by decide) (by decide) rfl).1 (by decide)
  · exact (loginOutcomes demoHash [alice] ("alice".toList) ("letmein12345".toList)
      alice (by decide) (by decide) rfl).2 (by decide)

/-- Claim C7 (code bug): the upcoming bucket, run by its owner against a
store holding an owned task that is due strictly before the start of today
and not completed, returns the empty list instead of that task: the
populate filter tests an `isCompleted` path the Todo schema does not
define, so no document ever matches. -/
theorem upcomingMissesOverdue :
    getUpcommingTasks [bob] [todo7] (some bob) 0 = .ok [] ∧
    bob.todos = [todo7.id] ∧ todo7.dueDate < 0 ∧ todo7.completed = false :=
  ⟨rfl, rfl, by decide, rfl⟩

/-- Claim C8 counterexample: creating a task with priorityScore 15 — with
title, description and dueDate valid, the user authenticated and both
stores concrete — is neither rejected with BadRequest nor clamped into
[0,10]: the validation schema has no bounds, and the model validators
reject the save inside a try block whose catch surfaces a 500 "Failed to
create todo". -/
theorem createPriority15_cex :
    runHandler (createTask demoHash [alice] [] (some alice) 20
        ⟨some ("write report".toList), some ("quarterly".toList), some 0,
          none, none, some 15, none, none⟩) =
      .error ⟨INTERNAL_SERVER_ERROR, "Failed to create todo", []⟩ ∧
    INTERNAL_SERVER_ERROR ≠ BAD_REQUEST := by
  exact ⟨rfl, by decide⟩

/-- Claim C8 (amended): task creation applies one consistent policy to an
out-of-range priorityScore — rejection with a 500 Internal error produced
by the model validators (never BadRequest and never clamping), so nothing
is stored for such a request; and every task stored by a successful
creation has its priorityScore within [0,10]. -/
theorem createPriorityPolicy (hash : Str → Str) (usersDb : List UserRec)
    (todosDb : List TodoRec) (u um : UserRec) (fid : Nat) (body : TodoBody)
    (d : TodoParsed) (hfind : findUserById usersDb u.id = some um)
    (hzod : zodValidateTodo body = .ok d) :
    (¬(0 ≤ d.priorityScore ∧ d.priorityScore ≤ 10) →
      runHandler (createTask hash usersDb todosDb (some u) fid body) =
        .error ⟨INTERNAL_SERVER_ERROR, "Failed to create todo", []⟩) ∧
    (∀ out, createTask hash usersDb todosDb (some u) fid body = .ok out →
      0 ≤ out.created.priorityScore ∧ out.created.priorityScore ≤ 10) := by
  constructor
  · intro hrange
    have hinvalid : mongooseValidTodo (mkTodoDoc fid d) = false := by
      unfold mongooseValidTodo mkTodoDoc
      rcases not_and_or.mp hrange with hlt | hgt
      · have : decide (0 ≤ d.priorityScore) = false := by simpa using hlt
        simp [this]
      · have : decide (d.priorityScore ≤ 10) = false := by simpa using hgt
        simp [this]
    simp [createTask, hfind, hzod, tryCatch500, hinvalid, runHandler]
  · intro out hok
    simp only [createTask, hfind, hzod] at hok
    by_cases hvalid : mongooseValidTodo (mkTodoDoc fid d) = true
    · rw [show (!mongooseValidTodo (mkTodoDoc fid d)) = false by simp [hvalid]] at hok
      simp [tryCatch500] at hok
      have hcreated : out.created = mkTodoDoc fid d := by
        rw [← hok]
      rw [hcreated]
      unfold mongooseValidTodo at hvalid
      simp only [Bool.and_eq_true, decide_eq_true_eq] at hvalid
      exact ⟨hvalid.1.2, hvalid.2⟩
    · rw [show (!mongooseValidTodo (mkTodoDoc fid d)) = true by simp [hvalid]] at hok
      simp [tryCatch500] at hok

/-- Witness for C8: a creation request with priorityScore −3 on concrete
stores is answered with the 500 rejection. -/
theorem createPriorityPolicy_witness :
    runHandler (createTask demoHash [alice] [] (some alice) 21
        ⟨some ("file taxes".toList), some ("before april".toList), some 0,
          none, none, some (-3), none, none⟩) =
      .error ⟨INTERNAL_SERVER_ERROR, "Failed to create todo", []⟩ :=
  (createPriorityPolicy demoHash [alice] [] alice alice 21
      ⟨some ("file taxes".toList), some ("before april".toList), some 0,
        none, none, some (-3), none, none⟩
      ⟨"file taxes".toList, "before april".toList, 0, false, -3, 0, []⟩
      rfl rfl).1 (by decide)

/-- Claim C9: logout is idempotent — for an authenticated user whose id
resolves in the store, the first call returns success and leaves both
stored tokens of that user null, and an immediate second call also returns
success and leaves both stored tokens null. -/
theorem logoutIdempotent (hash : Str → Str) (db : List UserRec) (u um : UserRec)
    (hfind : findUserById db u.id = some um) :
    userLogout hash db (some u) =
      .ok ("Logout successful",
        saveUser db { um with accessToken := none, refreshToken := none }) ∧
    allTokensNull
      (saveUser db { um with accessToken := none, refreshToken := none }) u.id = true ∧
    userLogout hash
        (saveUser db { um with accessToken := none, refreshToken := none }) (some u) =
      .ok ("Logout successful",
        saveUser (saveUser db { um with accessToken := none, refreshToken := none })
          { um with accessToken := none, refreshToken := none }) ∧
    allTokensNull
      (saveUser (saveUser db { um with accessToken := none, refreshToken := none })
        { um with accessToken := none, refreshToken := none }) u.id = true := by
  have humid : um.id = u.id := by
    have := List.find?_some hfind
    simpa using this
  have hid1 : (UserRec.mk um.id um.username um.email um.password none none um.todos).id = u.id :=
    humid
  have hfind2 : findUserById
      (saveUser db { um with accessToken := none, refreshToken := none }) u.id =
      some { um with accessToken := none, refreshToken := none } :=
    findUserById_saveUser hfind hid1
  refine ⟨?_, ?_, ?_, ?_⟩
  · simp [userLogout, hfind, preSaveHashHook]
  · rw [← hid1]
    exact allTokensNull_saveUser db _ rfl rfl
  · simp [userLogout, hfind2, preSaveHashHook]
  · rw [← hid1]
    exact allTokensNull_saveUser _ _ rfl rfl

/-- A concrete logged-in user (both tokens set) for the logout claim. -/
def dana : UserRec :=
  ⟨4, "dana".toList, "dana@example.com".toList,
    demoHash ("correcthorse".toList), some ("tokA".toList),
    some ("tokR".toList), []⟩

/-- Witness for C9: both consecutive logout calls of the concrete user dana
succeed and leave the stored tokens null. -/
theorem logoutIdempotent_witness :
    userLogout demoHash [dana] (some dana) =
      .ok ("Logout successful",
        saveUser [dana] { dana with accessToken := none, refreshToken := none }) ∧
    allTokensNull
      (saveUser [dana] { dana with accessToken := none, refreshToken := none }) dana.id = true ∧
    userLogout demoHash
        (saveUser [dana] { dana with accessToken := none, refreshToken := none }) (some dana) =
      .ok ("Logout successful",
        saveUser (saveUser [dana] { dana with accessToken := none, refreshToken := none })
          { dana with accessToken := none, refreshToken := none }) ∧
    allTokensNull
      (saveUser (saveUser [dana] { dana with accessToken := none, refreshToken := none })
        { dana with accessToken := none, refreshToken := none }) dana.id = true :=
  logoutIdempotent demoHash [dana] dana dana rfl

/-- Claim C10: every successfully created task is stored with
completed = false, whatever completion flags the request body carried: the
validation schema emits `isCompleted`, a path the Todo model does not
define, so document creation drops it and the schema default applies. -/
theorem createdTaskNotCompleted (hash : Str → Str) (usersDb : List UserRec)
    (todosDb : List TodoRec) (u : UserRec) (fid : Nat) (body : TodoBody)
    (out : CreateOutcome)
    (hok : createTask hash usersDb todosDb (some u) fid body = .ok out) :
    out.created.completed = false := by
  cases hfind : findUserById usersDb u.id with
  | none => simp [createTask, hfind] at hok
  | some um =>
    cases hzod : zodValidateTodo body with
    | error msgs => simp [createTask, hfind, hzod] at hok
    | ok d =>
      by_cases hvalid : mongooseValidTodo (mkTodoDoc fid d) = true
      · simp [createTask, hfind, hzod, tryCatch500, hvalid] at hok
        rw [← hok]
        simp [mkTodoDoc]
      · simp [createTask, hfind, hzod, tryCatch500, hvalid] at hok

/-- Witness for C10: a concrete creation request carrying both
completed = true and isCompleted = true still persists the task with
completed = false. -/
theorem createdTaskNotCompleted_witness :
    (CreateOutcome.mk
        (mkTodoDoc 30 ⟨"walk dog".toList, "evening".toList, 100, true, 3, 5, []⟩)
        [mkTodoDoc 30 ⟨"walk dog".toList, "evening".toList, 100, true, 3, 5, []⟩]
        (saveUser [bob] { bob with todos := bob.todos ++ [30] })).created.completed = false :=
  createdTaskNotCompleted demoHash [bob] [] bob 30
    ⟨some ("walk dog".toList), some ("evening".toList), some 100, some true,
      some true, some 3, some 5, some []⟩
    (CreateOutcome.mk
      (mkTodoDoc 30 ⟨"walk dog".toList, "evening".toList, 100, true, 3, 5, []⟩)
      [mkTodoDoc 30 ⟨"walk dog".toList, "evening".toList, 100, true, 3, 5, []⟩]
      (saveUser [bob] { bob with todos := bob.todos ++ [30] }))
    rfl

end TopTask
